import Mathlib

/-!
Verification development for the DialectMap batch transform
(`Web/Dialect_data_Analyse.py`).

The Python source is shallowly embedded: its pure functions become Lean
functions, pandas cells become `Option`/`NumCell` values, and the
row-iteration driver becomes explicit list recursion.  Table iteration
order (significant in the source, since Python dicts iterate in insertion
order) is preserved by the order of the association lists below.

CPython floats are IEEE-754 binary64 with correctly rounded `+ - * /`, so
the float arithmetic of `generate_province_colors` is embedded exactly:
every float is a dyadic rational (`Frac`), and each arithmetic step rounds
the exact rational result to 53 significant bits with round-to-nearest,
ties-to-even (`flt`).  All values of this program lie well inside the
normal binary64 range, so overflow and subnormal handling never fire and
are not modelled.  The embedding is cross-checked below against a table of
the program's float outputs for every reachable input
(`hsv_reference_table`, all pairs `i < n ≤ 35`).
-/

set_option maxRecDepth 8000
set_option maxHeartbeats 1200000

namespace DialectMap

/-- Boolean test: `pat` occurs as a contiguous infix of `s` (lists of
characters).  Models Python's `pat in s` / `re.search(pat, s)` for patterns
without metacharacters. -/
def isInfixOfB : List Char → List Char → Bool
  | pat, [] => pat.isEmpty
  | pat, c :: rest => pat.isPrefixOf (c :: rest) || isInfixOfB pat rest

/-- `pat` occurs as a substring of `s`. -/
def isSubstr (pat s : String) : Bool := isInfixOfB pat.toList s.toList

/-- The ordered list of 34 province-name stems searched first
(`provinces` in `extract_province`). -/
def provinces : List String :=
  ["北京", "天津", "河北", "山西", "内蒙古",
   "辽宁", "吉林", "黑龙江", "上海", "江苏",
   "浙江", "安徽", "福建", "江西", "山东",
   "河南", "湖北", "湖南", "广东", "广西",
   "海南", "重庆", "四川", "贵州", "云南",
   "西藏", "陕西", "甘肃", "青海", "宁夏",
   "新疆", "台湾", "香港", "澳门"]

/-- The stem-to-full-canonical-name table (`province_fullname`). -/
def province_fullname : List (String × String) :=
  [("北京", "北京市"), ("天津", "天津市"), ("河北", "河北省"), ("山西", "山西省"),
   ("内蒙古", "内蒙古自治区"), ("辽宁", "辽宁省"), ("吉林", "吉林省"), ("黑龙江", "黑龙江省"),
   ("上海", "上海市"), ("江苏", "江苏省"), ("浙江", "浙江省"), ("安徽", "安徽省"),
   ("福建", "福建省"), ("江西", "江西省"), ("山东", "山东省"), ("河南", "河南省"),
   ("湖北", "湖北省"), ("湖南", "湖南省"), ("广东", "广东省"), ("广西", "广西壮族自治区"),
   ("海南", "海南省"), ("重庆", "重庆市"), ("四川", "四川省"), ("贵州", "贵州省"),
   ("云南", "云南省"), ("西藏", "西藏自治区"), ("陕西", "陕西省"), ("甘肃", "甘肃省"),
   ("青海", "青海省"), ("宁夏", "宁夏回族自治区"), ("新疆", "新疆维吾尔自治区"),
   ("台湾", "台湾省"), ("香港", "香港特别行政区"), ("澳门", "澳门特别行政区")]

/-- The single-character abbreviation table (`province_abbr`), in the
source's insertion (= iteration) order. -/
def province_abbr : List (String × String) :=
  [("京", "北京市"), ("津", "天津市"), ("冀", "河北省"), ("晋", "山西省"),
   ("蒙", "内蒙古自治区"), ("辽", "辽宁省"), ("吉", "吉林省"), ("黑", "黑龙江省"),
   ("沪", "上海市"), ("苏", "江苏省"), ("浙", "浙江省"), ("皖", "安徽省"),
   ("闽", "福建省"), ("赣", "江西省"), ("鲁", "山东省"), ("豫", "河南省"),
   ("鄂", "湖北省"), ("湘", "湖南省"), ("粤", "广东省"), ("桂", "广西壮族自治区"),
   ("琼", "海南省"), ("渝", "重庆市"), ("川", "四川省"), ("黔", "贵州省"),
   ("滇", "云南省"), ("藏", "西藏自治区"), ("陕", "陕西省"), ("甘", "甘肃省"),
   ("青", "青海省"), ("宁", "宁夏回族自治区"), ("新", "新疆维吾尔自治区"),
   ("台", "台湾省"), ("港", "香港特别行政区"), ("澳", "澳门特别行政区")]

/-- The city-to-province fallback table (`city_to_province`), in the
source's insertion (= iteration) order. -/
def city_to_province : List (String × String) :=
  [("北京", "北京市"), ("上海", "上海市"), ("天津", "天津市"), ("重庆", "重庆市"),
   ("广州", "广东省"), ("深圳", "广东省"), ("珠海", "广东省"),
   ("杭州", "浙江省"), ("宁波", "浙江省"), ("温州", "浙江省"),
   ("南京", "江苏省"), ("苏州", "江苏省"), ("无锡", "江苏省"),
   ("成都", "四川省"), ("绵阳", "四川省"),
   ("武汉", "湖北省"), ("宜昌", "湖北省"),
   ("西安", "陕西省"), ("咸阳", "陕西省"),
   ("沈阳", "辽宁省"), ("大连", "辽宁省"),
   ("济南", "山东省"), ("青岛", "山东省"),
   ("郑州", "河南省"), ("洛阳", "河南省"),
   ("长沙", "湖南省"), ("株洲", "湖南省"),
   ("合肥", "安徽省"), ("福州", "福建省"),
   ("南昌", "江西省"), ("昆明", "云南省")]

/-- `province_fullname[province]` in the source: dictionary access.  Every
stem in `provinces` is a key of `province_fullname`, so the default is
never reached on the source's control path. -/
def lookupFullname (p : String) : String :=
  match province_fullname.find? (fun pr => pr.1 == p) with
  | some pr => pr.2
  | none => "未知省份"

/-- `extract_province(location)`: tiered first-match resolution.
`none` models a missing/NaN cell; an empty string is also rejected by the
source's `if not location` guard. -/
def extract_province (location : Option String) : String :=
  match location with
  | none => "未知省份"
  | some loc =>
    if loc = "" then "未知省份"
    else
      match provinces.find? (fun p => isSubstr p loc) with
      | some p => lookupFullname p
      | none =>
        match province_abbr.find? (fun pr => isSubstr pr.1 loc) with
        | some pr => pr.2
        | none =>
          match city_to_province.find? (fun pr => isSubstr pr.1 loc) with
          | some pr => pr.2
          | none => "未知省份"

example : extract_province (some "江苏南京") = "江苏省" := by decide
example : extract_province (some "沪上风光") = "上海市" := by decide
example : extract_province (some "绵阳市") = "四川省" := by decide
example : extract_province (some "青岛") = "青海省" := by decide
example : extract_province none = "未知省份" := by decide
example : extract_province (some "") = "未知省份" := by decide

/-- One lowercase hexadecimal digit (0..15). -/
def hexDigit (n : Nat) : Char :=
  if n < 10 then Char.ofNat (48 + n) else Char.ofNat (87 + n)

/-- Python's `f'\x7bn:02x\x7d'` for `n < 256`: two lowercase hex digits. -/
def toHex2 (n : Nat) : String := String.mk [hexDigit (n / 16), hexDigit (n % 16)]

/-- An exact, unnormalized fraction `num / den` (`den` positive in every
value this development builds).  Plain `Int`/`Nat` components are used so
every operation reduces inside the kernel.  A binary64 float value is
represented as a `Frac` whose denominator is a power of two. -/
structure Frac where
  num : Int
  den : Nat
  deriving DecidableEq, Repr

/-- Embed an integer. -/
def Frac.ofInt (n : Int) : Frac := ⟨n, 1⟩

/-- Exact fraction multiplication. -/
def Frac.mul (a b : Frac) : Frac := ⟨a.num * b.num, a.den * b.den⟩

/-- Exact fraction subtraction. -/
def Frac.sub (a b : Frac) : Frac :=
  ⟨a.num * (b.den : Int) - b.num * (a.den : Int), a.den * b.den⟩

/-- Exact fraction division (used only with positive divisors). -/
def Frac.div (a b : Frac) : Frac :=
  if 0 ≤ b.num then ⟨a.num * (b.den : Int), a.den * b.num.toNat⟩
  else ⟨-(a.num * (b.den : Int)), a.den * (-b.num).toNat⟩

/-- Python's `int(...)`: truncation toward zero (`Int.tdiv` is exactly
toward-zero division). -/
def Frac.toInt (a : Frac) : Int := a.num.tdiv (a.den : Int)

/-- Evaluation-sharing helper: forces a `Nat` to a numeral before it is
substituted into the continuation, so repeated uses do not re-evaluate the
producing expression under call-by-name reduction. -/
def forceN {α : Type} : Nat → (Nat → α) → α
  | 0, k => k 0
  | n+1, k => k (n+1)

/-- Evaluation-sharing helper for `Int`. -/
def forceI {α : Type} : Int → (Int → α) → α
  | Int.ofNat n, k => forceN n (fun n0 => k (Int.ofNat n0))
  | Int.negSucc n, k => forceN n (fun n0 => k (Int.negSucc n0))

/-- One binary-descent step of the bit-length computation: if `n` has at
least `kk + 1` bits, shift them away and credit `kk` to the accumulator. -/
def blStep (kk : Nat) (cont : Nat → Nat → Nat) (n acc : Nat) : Nat :=
  if 1 <<< kk ≤ n then
    forceN (n >>> kk) (fun n2 => forceN (acc + kk) (fun a2 => cont n2 a2))
  else cont n acc

/-- Number of binary digits of `n` (0 for 0), for `n < 2 ^ 1024`. -/
def bitLen (n : Nat) : Nat :=
  forceN n (fun n0 =>
    blStep 512 (blStep 256 (blStep 128 (blStep 64 (blStep 32 (blStep 16
      (blStep 8 (blStep 4 (blStep 2 (blStep 1 (fun n1 acc => acc + n1))))))))))
      n0 0)

/-- Given the bit-length difference `d` of `a` and `b`, decide whether
`a / b` has reached `2 ^ d`, yielding the floor of its base-2 logarithm. -/
def flog2Cmp (a b : Nat) : Int → Int
  | Int.ofNat dn => if b <<< dn ≤ a then Int.ofNat dn else Int.ofNat dn - 1
  | Int.negSucc dn => if b ≤ a <<< (dn + 1) then Int.negSucc dn else Int.negSucc dn - 1

/-- Floor of the base-2 logarithm of `a / b` (`a, b` positive). -/
def flog2 (a b : Nat) : Int :=
  forceN (bitLen a) (fun la => forceN (bitLen b) (fun lb =>
    flog2Cmp a b ((la : Int) - (lb : Int))))

/-- Round-to-nearest, ties-to-even selection of the 53-bit mantissa from
the truncated quotient `q` and remainder `r` of the scaled division by
`D`. -/
def mantRound (D q r : Nat) : Nat :=
  if 2 * r < D then q
  else if D < 2 * r then q + 1
  else if q % 2 = 0 then q else q + 1

/-- The dyadic value `m * 2 ^ (e - 52)` as an exact fraction. -/
def mkDyadic (m : Nat) (e : Int) : Frac :=
  if 52 ≤ e then ⟨((m <<< (e - 52).toNat : Nat) : Int), 1⟩
  else ⟨(m : Int), 1 <<< (52 - e).toNat⟩

/-- Round the scaled ratio `N / D` (lying in `[2^52, 2^53)`) to a 53-bit
mantissa and attach the exponent `e`. -/
def roundScaled (e : Int) (N D : Nat) : Frac :=
  forceN (N / D) (fun q => forceN (N % D) (fun r =>
    forceN (mantRound D q r) (fun m => mkDyadic m e)))

/-- Round the positive rational `a / b` to the nearest binary64 value
(round-to-nearest, ties-to-even), as an exact dyadic fraction.  Exponent
range checks are omitted: every value of this program is a normal
binary64 number. -/
def roundPos (a b : Nat) : Frac :=
  forceI (flog2 a b) (fun e =>
    if 0 ≤ 52 - e then roundScaled e (a <<< (52 - e).toNat) b
    else roundScaled e a (b <<< (e - 52).toNat))

/-- `fl(x)`: the IEEE-754 binary64 rounding function applied to an exact
rational, as CPython applies it to the result of every float operation. -/
def flt : Frac → Frac
  | ⟨Int.ofNat 0, _⟩ => ⟨0, 1⟩
  | ⟨Int.ofNat (m+1), d⟩ => roundPos (m + 1) d
  | ⟨Int.negSucc m, d⟩ =>
    match roundPos (m + 1) d with
    | ⟨pn, pd⟩ => ⟨-pn, pd⟩

/-- CPython float multiplication: exact product, correctly rounded. -/
def fmul (a b : Frac) : Frac := flt (Frac.mul a b)

/-- CPython float subtraction: exact difference, correctly rounded. -/
def fsub (a b : Frac) : Frac := flt (Frac.sub a b)

/-- CPython float (true) division: exact quotient, correctly rounded. -/
def fdiv (a b : Frac) : Frac := flt (Frac.div a b)

/-- The color computed for index `i` out of `n` provinces: the body of the
loop in `generate_province_colors`, transcribing the source's
`hue_steps`/`hue`/`h`/`s`/`v`/sector/`f`/`p`/`q`/`t` computation under
binary64 float semantics.  The literals `0.6` and `0.8` are the doubles
nearest those decimals (`flt ⟨6, 10⟩`, `flt ⟨8, 10⟩`); integers such as
`360`, `n`, `i`, `sector`, `255` convert to float exactly at these
magnitudes; each arithmetic step rounds. -/
def hsv_to_hex (n i : Nat) : String :=
  let hue_steps : Frac := fdiv (Frac.ofInt 360) (Frac.ofInt n)
  let hue : Int := (fmul (Frac.ofInt i) hue_steps).toInt
  let h : Frac := fdiv (Frac.ofInt hue) (Frac.ofInt 360)
  let s : Frac := flt ⟨6, 10⟩
  let v : Frac := flt ⟨8, 10⟩
  let sector : Int := (fmul h (Frac.ofInt 6)).toInt
  let f : Frac := fsub (fmul h (Frac.ofInt 6)) (Frac.ofInt sector)
  let p : Frac := fmul v (fsub (Frac.ofInt 1) s)
  let q : Frac := fmul v (fsub (Frac.ofInt 1) (fmul f s))
  let t : Frac := fmul v (fsub (Frac.ofInt 1) (fmul (fsub (Frac.ofInt 1) f) s))
  let rgb : Frac × Frac × Frac :=
    if sector = 0 then (v, t, p)
    else if sector = 1 then (q, v, p)
    else if sector = 2 then (p, v, t)
    else if sector = 3 then (p, q, v)
    else if sector = 4 then (t, p, v)
    else (v, p, q)
  let r : Nat := (fmul rgb.1 (Frac.ofInt 255)).toInt.toNat
  let g : Nat := (fmul rgb.2.1 (Frac.ofInt 255)).toInt.toNat
  let b : Nat := (fmul rgb.2.2 (Frac.ofInt 255)).toInt.toNat
  "#" ++ toHex2 r ++ toHex2 g ++ toHex2 b

/-- `generate_province_colors(provinces)`: one `(province, color)` pair per
label, colors spaced over the hue circle.  The source builds a Python dict
from this pair list; since the driver always passes pairwise-distinct
labels, the dict is faithfully modelled by first-match association-list
lookup (`dictGet`). -/
def generate_province_colors (provs : List String) : List (String × String) :=
  provs.enum.map (fun pr => (pr.2, hsv_to_hex provs.length pr.1))

/-- `d.get(k, dflt)` on a Python dict built from pair list `d` with
pairwise-distinct keys. -/
def dictGet (d : List (String × String)) (k dflt : String) : String :=
  match d.find? (fun pr => pr.1 == k) with
  | some pr => pr.2
  | none => dflt

example : hsv_to_hex 1 0 = "#cc5151" := by decide
example : generate_province_colors [] = [] := rfl

example : hsv_to_hex 11 4 = "#51cc65" := by decide

/-- Reference outputs of the source's color loop: row `k` (0-based) lists,
for `n = k + 1` provinces, the hex colors the program's IEEE-754 binary64
float computation emits for `i = 0 .. n - 1`.  Every input reachable in a
run appears (the resolver's codomain has 35 values, so `n ≤ 35`).
`hsv_to_hex` is checked against this table entry-by-entry in
`hsv_table_ok`. -/
def hsv_reference_table : List (List String) :=
  [["#cc5151"],
   ["#cc5151", "#51cccc"],
   ["#cc5151", "#51cc51", "#5151cc"],
   ["#cc5151", "#8ecc51", "#51cccc", "#8e51cc"],
   ["#cc5151", "#b3cc51", "#51cc82", "#5182cc", "#b351cc"],
   ["#cc5151", "#cccc51", "#51cc51", "#51cccc", "#5151cc", "#cc51cc"],
   ["#cc5151", "#ccb951", "#76cc51", "#51cc96", "#5199cc", "#7451cc", "#cc51bb"],
   ["#cc5151", "#ccad51", "#8ecc51", "#51cc70", "#51cccc", "#5170cc", "#8e51cc", "#cc51ad"],
   ["#cc5151", "#cca351", "#a3cc51", "#51cc51", "#51cca3", "#51a3cc", "#5151cc", "#a351cc", "#cc51a3"],
   ["#cc5151", "#cc9b51", "#b3cc51", "#6acc51", "#51cc82", "#51cccc", "#5182cc", "#6a51cc", "#b351cc", "#cc519b"],
   ["#cc5151", "#cc9251", "#c1cc51", "#7ecc51", "#51cc65", "#51cca9", "#51abcc", "#5168cc", "#7c51cc", "#bf51cc", "#cc5194"],
   ["#cc5151", "#cc8e51", "#cccc51", "#8ecc51", "#51cc51", "#51cc8e", "#51cccc", "#518ecc", "#5151cc", "#8e51cc", "#cc51cc", "#cc518e"],
   ["#cc5151", "#cc8851", "#ccc151", "#9dcc51", "#65cc51", "#51cc76", "#51ccaf", "#51b1cc", "#5178cc", "#6351cc", "#9b51cc", "#cc51c3", "#cc518a"],
   ["#cc5151", "#cc8451", "#ccb951", "#a9cc51", "#76cc51", "#51cc61", "#51cc96", "#51cccc", "#5199cc", "#5163cc", "#7451cc", "#a751cc", "#cc51bb", "#cc5186"],
   ["#cc5151", "#cc8251", "#ccb351", "#b3cc51", "#82cc51", "#51cc51", "#51cc82", "#51ccb3", "#51b3cc", "#5182cc", "#5151cc", "#8251cc", "#b351cc", "#cc51b3", "#cc5182"],
   ["#cc5151", "#cc7e51", "#ccad51", "#bdcc51", "#8ecc51", "#61cc51", "#51cc70", "#51cc9d", "#51cccc", "#519fcc", "#5170cc", "#5f51cc", "#8e51cc", "#bb51cc", "#cc51ad", "#cc5180"],
   ["#cc5151", "#cc7c51", "#cca751", "#c5cc51", "#9bcc51", "#70cc51", "#51cc5f", "#51cc8a", "#51ccb5", "#51b7cc", "#518ccc", "#5161cc", "#6e51cc", "#9851cc", "#c351cc", "#cc51a9", "#cc517e"],
   ["#cc5151", "#cc7a51", "#cca351", "#cccc51", "#a3cc51", "#7acc51", "#51cc51", "#51cc7a", "#51cca3", "#51cccc", "#51a3cc", "#517acc", "#5151cc", "#7a51cc", "#a351cc", "#cc51cc", "#cc51a3", "#cc517a"],
   ["#cc5151", "#cc7651", "#cc9d51", "#ccc351", "#adcc51", "#86cc51", "#5fcc51", "#51cc6a", "#51cc90", "#51ccb7", "#51b9cc", "#5192cc", "#516ccc", "#5d51cc", "#8451cc", "#ab51cc", "#cc51c5", "#cc519f", "#cc5178"],
   ["#cc5151", "#cc7651", "#cc9b51", "#ccbf51", "#b3cc51", "#8ecc51", "#6acc51", "#51cc5d", "#51cc82", "#51cca7", "#51cccc", "#51a7cc", "#5182cc", "#515dcc", "#6a51cc", "#8e51cc", "#b351cc", "#cc51bf", "#cc519b", "#cc5176"],
   ["#cc5151", "#cc7451", "#cc9651", "#ccb951", "#bbcc51", "#99cc51", "#76cc51", "#51cc51", "#51cc74", "#51cc96", "#51ccb9", "#51bbcc", "#5199cc", "#5176cc", "#5151cc", "#7451cc", "#9651cc", "#b951cc", "#cc51bb", "#cc5198", "#cc5176"],
   ["#cc5151", "#cc7251", "#cc9251", "#ccb551", "#c1cc51", "#a1cc51", "#7ecc51", "#5dcc51", "#51cc65", "#51cc88", "#51cca9", "#51cccc", "#51abcc", "#518acc", "#5168cc", "#5b51cc", "#7c51cc", "#9f51cc", "#bf51cc", "#cc51b7", "#cc5194", "#cc5174"],
   ["#cc5151", "#cc7051", "#cc9051", "#ccaf51", "#c7cc51", "#a7cc51", "#88cc51", "#68cc51", "#51cc5b", "#51cc7a", "#51cc9b", "#51ccbb", "#51bdcc", "#519dcc", "#517ccc", "#515dcc", "#6551cc", "#8651cc", "#a551cc", "#c551cc", "#cc51b1", "#cc5192", "#cc5172"],
   ["#cc5151", "#cc7051", "#cc8e51", "#ccad51", "#cccc51", "#adcc51", "#8ecc51", "#70cc51", "#51cc51", "#51cc70", "#51cc8e", "#51ccad", "#51cccc", "#51adcc", "#518ecc", "#5170cc", "#5151cc", "#7051cc", "#8e51cc", "#ad51cc", "#cc51cc", "#cc51ad", "#cc518e", "#cc5170"],
   ["#cc5151", "#cc6e51", "#cc8a51", "#cca951", "#ccc551", "#b3cc51", "#96cc51", "#7acc51", "#5bcc51", "#51cc63", "#51cc82", "#51cc9f", "#51ccbb", "#51bdcc", "#51a1cc", "#5182cc", "#5166cc", "#5951cc", "#7851cc", "#9451cc", "#b351cc", "#cc51c7", "#cc51ab", "#cc518c", "#cc5170"],
   ["#cc5151", "#cc6c51", "#cc8851", "#cca551", "#ccc151", "#b9cc51", "#9dcc51", "#82cc51", "#65cc51", "#51cc59", "#51cc76", "#51cc92", "#51ccaf", "#51cccc", "#51b1cc", "#5194cc", "#5178cc", "#515bcc", "#6351cc", "#8051cc", "#9b51cc", "#b751cc", "#cc51c3", "#cc51a7", "#cc518a", "#cc516e"],
   ["#cc5151", "#cc6c51", "#cc8651", "#cca351", "#ccbd51", "#bfcc51", "#a3cc51", "#88cc51", "#6ecc51", "#51cc51", "#51cc6c", "#51cc86", "#51cca3", "#51ccbd", "#51bfcc", "#51a3cc", "#5188cc", "#516ecc", "#5151cc", "#6c51cc", "#8651cc", "#a351cc", "#bd51cc", "#cc51bf", "#cc51a3", "#cc5188", "#cc516e"],
   ["#cc5151", "#cc6a51", "#cc8451", "#cc9f51", "#ccb951", "#c3cc51", "#a9cc51", "#8ecc51", "#76cc51", "#5bcc51", "#51cc61", "#51cc7c", "#51cc96", "#51ccb1", "#51cccc", "#51b3cc", "#5199cc", "#517ecc", "#5163cc", "#5951cc", "#7451cc", "#8e51cc", "#a751cc", "#c151cc", "#cc51bb", "#cc51a1", "#cc5186", "#cc516c"],
   ["#cc5151", "#cc6a51", "#cc8251", "#cc9d51", "#ccb551", "#c7cc51", "#afcc51", "#96cc51", "#7ccc51", "#63cc51", "#51cc59", "#51cc72", "#51cc8a", "#51cca5", "#51ccbd", "#51bfcc", "#51a7cc", "#518ccc", "#5174cc", "#515bcc", "#6151cc", "#7a51cc", "#9451cc", "#ad51cc", "#c551cc", "#cc51b7", "#cc519f", "#cc5184", "#cc516c"],
   ["#cc5151", "#cc6a51", "#cc8251", "#cc9b51", "#ccb351", "#cccc51", "#b3cc51", "#9bcc51", "#82cc51", "#6acc51", "#51cc51", "#51cc6a", "#51cc82", "#51cc9b", "#51ccb3", "#51cccc", "#51b3cc", "#519bcc", "#5182cc", "#516acc", "#5151cc", "#6a51cc", "#8251cc", "#9b51cc", "#b351cc", "#cc51cc", "#cc51b3", "#cc519b", "#cc5182", "#cc516a"],
   ["#cc5151", "#cc6851", "#cc8051", "#cc9651", "#ccaf51", "#ccc751", "#b9cc51", "#a1cc51", "#8acc51", "#72cc51", "#59cc51", "#51cc5f", "#51cc78", "#51cc8e", "#51cca7", "#51ccbf", "#51c1cc", "#51a9cc", "#5190cc", "#517acc", "#5161cc", "#5751cc", "#7051cc", "#8851cc", "#9f51cc", "#b751cc", "#cc51c9", "#cc51b1", "#cc5198", "#cc5182", "#cc516a"],
   ["#cc5151", "#cc6851", "#cc7e51", "#cc9451", "#ccad51", "#ccc351", "#bdcc51", "#a7cc51", "#8ecc51", "#78cc51", "#61cc51", "#51cc57", "#51cc70", "#51cc86", "#51cc9d", "#51ccb3", "#51cccc", "#51b5cc", "#519fcc", "#5188cc", "#5170cc", "#5159cc", "#5f51cc", "#7651cc", "#8e51cc", "#a551cc", "#bb51cc", "#cc51c5", "#cc51ad", "#cc5196", "#cc5180", "#cc516a"],
   ["#cc5151", "#cc6651", "#cc7c51", "#cc9251", "#cca951", "#ccbf51", "#c1cc51", "#abcc51", "#94cc51", "#7ecc51", "#68cc51", "#53cc51", "#51cc65", "#51cc7c", "#51cc92", "#51cca9", "#51ccbf", "#51c1cc", "#51abcc", "#5194cc", "#517ecc", "#5168cc", "#5153cc", "#6551cc", "#7c51cc", "#9251cc", "#a951cc", "#bf51cc", "#cc51c1", "#cc51ab", "#cc5194", "#cc517e", "#cc5168"],
   ["#cc5151", "#cc6651", "#cc7c51", "#cc9051", "#cca751", "#ccbb51", "#c5cc51", "#afcc51", "#9bcc51", "#84cc51", "#70cc51", "#59cc51", "#51cc5f", "#51cc74", "#51cc8a", "#51cc9f", "#51ccb5", "#51cccc", "#51b7cc", "#51a1cc", "#518ccc", "#5176cc", "#5161cc", "#5751cc", "#6e51cc", "#8251cc", "#9851cc", "#ad51cc", "#c351cc", "#cc51bd", "#cc51a9", "#cc5192", "#cc517e", "#cc5168"],
   ["#cc5151", "#cc6651", "#cc7a51", "#cc8e51", "#cca551", "#ccb951", "#c9cc51", "#b3cc51", "#9fcc51", "#8acc51", "#76cc51", "#5fcc51", "#51cc57", "#51cc6c", "#51cc82", "#51cc96", "#51ccab", "#51ccbf", "#51c1cc", "#51adcc", "#5199cc", "#5182cc", "#516ecc", "#5159cc", "#5d51cc", "#7451cc", "#8851cc", "#9d51cc", "#b351cc", "#c751cc", "#cc51bb", "#cc51a7", "#cc5190", "#cc517c", "#cc5168"]]

/-- Reference binary64 quotients: `(a, b, num, den)` where `num / den` is
the exact value of the double `a / b`.  Used to validate `flt` against
IEEE-754 division directly. -/
def flt_reference_table : List (Nat × Nat × Int × Nat) :=
  [(6, 10, 5404319552844595, 9007199254740992),
   (8, 10, 3602879701896397, 4503599627370496),
   (360, 11, 4605954164356189, 140737488355328),
   (360, 7, 3618963986279863, 70368744177664),
   (1, 3, 6004799503160661, 18014398509481984),
   (355, 113, 884279794090999, 281474976710656),
   (123456789, 997, 1063676772766645, 8589934592),
   (1, 10, 3602879701896397, 36028797018963968),
   (359, 360, 2245544814202789, 2251799813685248)]

/-- One spreadsheet cell of the numeric latitude/longitude columns:
missing (NaN), a parseable number, or an unparsable value on which
Python's `float(...)` raises `ValueError`/`TypeError`. -/
inductive NumCell where
  | missing
  | num (q : Rat)
  | bad
  deriving DecidableEq, Repr

/-- The value `float(cell) if pd.notnull(cell) else 0.0` would produce,
`none` when the conversion raises. -/
def parseCoord : NumCell → Option Rat
  | NumCell.missing => some (0 : Rat)
  | NumCell.num q => some q
  | NumCell.bad => none

/-- One input row of the spreadsheet (`location, latitude, longitude,
collector, audio, content` columns); `none` models a missing/NaN cell. -/
structure Row where
  location : Option String
  latitude : NumCell
  longitude : NumCell
  collector : Option String
  audio : Option String
  content : Option String
  deriving DecidableEq, Repr

/-- One record of the output JSON array; the nested `audio` object is
flattened into `audio_url`/`audio_name`. -/
structure OutputRecord where
  id : String
  location : String
  province : String
  longitude : Rat
  latitude : Rat
  color : String
  collector : String
  audio_url : String
  audio_name : String
  content : String
  deriving DecidableEq, Repr

/-- The warning printed for row index `i` (0-based) when a coordinate is
unparsable; it shows the 1-based row number `i+1`. -/
def warnMsg (i : Nat) : String :=
  "警告: 第" ++ Nat.repr (i + 1) ++ "行的经纬度格式不正确，已设为默认值"

/-- The suffix of a character list after its last '/'. -/
def afterLastSlash : List Char → List Char
  | [] => []
  | c :: rest =>
    if rest.contains '/' then afterLastSlash rest
    else if c = '/' then rest else c :: rest

/-- `os.path.basename`: the part after the last slash. -/
def basename (s : String) : String := String.mk (afterLastSlash s.toList)

/-- Index of the last '.' in a character list, if any. -/
def lastIndexOfDot : List Char → Option Nat
  | [] => none
  | c :: rest =>
    match lastIndexOfDot rest with
    | some i => some (i + 1)
    | none => if c = '.' then some 0 else none

/-- `os.path.splitext(b)[0]` for a slash-free `b`: strip from the last dot,
unless every character before that dot is itself a dot. -/
def splitextStem (b : String) : String :=
  match lastIndexOfDot b.toList with
  | none => b
  | some d =>
    if (b.toList.take d).any (fun c => c ≠ '.') then String.mk (b.toList.take d)
    else b

example : splitextStem (basename "rec/foo.wav") = "foo" := by decide
example : splitextStem (basename ".bashrc") = ".bashrc" := by decide
example : splitextStem (basename "a/b/c.tar.gz") = "c.tar" := by decide

/-- `pandas.Series.unique` keeps the first occurrence of each value, in
first-seen order; `seen` accumulates the values already emitted. -/
def uniqueFirstAux (seen : List String) : List String → List String
  | [] => []
  | x :: xs =>
    if x ∈ seen then uniqueFirstAux seen xs
    else x :: uniqueFirstAux (x :: seen) xs

/-- `df["省份"].unique().tolist()`. -/
def uniqueFirst (l : List String) : List String := uniqueFirstAux [] l

/-- The coordinate computation of one loop body iteration: longitude is
converted first, then latitude; if either conversion raises, both become
`0.0` and the row's warning is printed. -/
def coordOf (i : Nat) (row : Row) : Rat × Rat × List String :=
  match parseCoord row.longitude, parseCoord row.latitude with
  | some lo, some la => (lo, la, [])
  | some _, none => (0, 0, [warnMsg i])
  | none, _ => (0, 0, [warnMsg i])

/-- Whether the row takes the `except` branch (some coordinate unparsable). -/
def rowBad (row : Row) : Bool :=
  (parseCoord row.longitude).isNone || (parseCoord row.latitude).isNone

/-- One iteration of the `for index, row in df.iterrows()` loop: the built
`dialect_item` together with the warnings it printed.  `i` is the 0-based
row index. -/
def buildRecord (colors : List (String × String)) (audioPre : String)
    (i : Nat) (row : Row) : OutputRecord × List String :=
  let coord := coordOf i row
  let province := extract_province row.location
  let au := row.audio.getD ""
  ({ id := "dialect_" ++ Nat.repr (i + 1),
     location := row.location.getD ("未知地点_" ++ Nat.repr (i + 1)),
     province := province,
     longitude := coord.1,
     latitude := coord.2.1,
     color := dictGet colors province "#999999",
     collector := row.collector.getD "未知采集人",
     audio_url := if au = "" then "" else audioPre ++ au,
     audio_name := if au = "" then "" else splitextStem (basename au),
     content := row.content.getD "无内容描述" },
   coord.2.2)

/-- The whole row loop, threading the 0-based index. -/
def buildAll (colors : List (String × String)) (audioPre : String) :
    Nat → List Row → List (OutputRecord × List String)
  | _, [] => []
  | i, r :: rs => buildRecord colors audioPre i r :: buildAll colors audioPre (i + 1) rs

/-- The observable outcome of `generate_dialect_json` on the success path:
the JSON records in row order, the coordinate warnings in emission order,
and the reported distinct-province count. -/
structure RunResult where
  records : List OutputRecord
  warnings : List String
  provinceCount : Nat
  deriving DecidableEq, Repr

/-- `generate_dialect_json(excel_path, output_json, audio_prefix)` with the
file I/O stripped: `rows` is the parsed spreadsheet, `audioPre` the audio
URL prefix. -/
def generate_dialect_json (rows : List Row) (audioPre : String) : RunResult :=
  let provs := rows.map (fun r => extract_province r.location)
  let unique_provinces := uniqueFirst provs
  let province_colors := generate_province_colors unique_provinces
  let items := buildAll province_colors audioPre 0 rows
  { records := items.map Prod.fst,
    warnings := (items.map Prod.snd).flatten,
    provinceCount := unique_provinces.length }

/-- Province labels seen at position `i` resolve into the color map. -/
def colorsOf (rows : List Row) : List (String × String) :=
  generate_province_colors (uniqueFirst (rows.map (fun r => extract_province r.location)))

/-- Placeholder row used to make positional access total. -/
def defaultRow : Row :=
  { location := none, latitude := NumCell.missing, longitude := NumCell.missing,
    collector := none, audio := none, content := none }

/-- Placeholder record used to make positional access total. -/
def defaultRec : OutputRecord :=
  { id := "", location := "", province := "", longitude := 0, latitude := 0,
    color := "", collector := "", audio_url := "", audio_name := "", content := "" }

/-- The `i`-th input row (0-based), total via a placeholder default. -/
def rowAt (rows : List Row) (i : Nat) : Row := rows.getD i defaultRow

/-- The `i`-th output record (0-based), total via a placeholder default. -/
def recAt (rows : List Row) (audioPre : String) (i : Nat) : OutputRecord :=
  (generate_dialect_json rows audioPre).records.getD i defaultRec

/-- One lowercase hexadecimal digit character. -/
def isHexDigitLower (c : Char) : Bool :=
  ('0' ≤ c && c ≤ '9') || ('a' ≤ c && c ≤ 'f')

/-- The spec's color format `^#[0-9a-f]\x7b6\x7d$`: a hash sign followed by six
lowercase hex digits. -/
def isHexColor (st : String) : Bool :=
  match st.toList with
  | '#' :: rest => rest.length == 6 && rest.all isHexDigitLower
  | _ => false

/-- The closed set of values `extract_province` can return: the 34 full
canonical names plus the unknown sentinel. -/
def provinceLabelSet : List String :=
  province_fullname.map Prod.snd ++ ["未知省份"]

/-- Specification-side description of the warning stream, for comparison
with the driver's output: starting at 0-based row index `k`, one warning
per row whose coordinates fail to convert, in row order. -/
def specWarnings : Nat → List Row → List String
  | _, [] => []
  | i, r :: rs => (if rowBad r then [warnMsg i] else []) ++ specWarnings (i + 1) rs

/-- Sample row whose location resolves to the unknown sentinel. -/
def rowUnknown : Row :=
  { location := some "某地", latitude := NumCell.num 30, longitude := NumCell.num 120,
    collector := some "张三", audio := some "rec/foo.wav", content := some "描述" }

/-- Sample row with a missing latitude cell and a valid longitude. -/
def rowMissingLat : Row :=
  { location := some "江苏南京", latitude := NumCell.missing, longitude := NumCell.num 120,
    collector := some "张三", audio := none, content := some "描述" }

/-- Sample row with an unparsable latitude cell and a valid longitude. -/
def rowBadLat : Row :=
  { location := some "江苏南京", latitude := NumCell.bad, longitude := NumCell.num 120,
    collector := some "张三", audio := some "rec/foo.wav", content := some "描述" }

/-- Sample fully-populated row. -/
def rowFull : Row :=
  { location := some "江苏南京", latitude := NumCell.num 32, longitude := NumCell.num 118,
    collector := some "李四", audio := some "rec/sub/bar.mp3", content := some "描述" }

/-- Sample row with every optional text field missing. -/
def rowEmptyText : Row :=
  { location := none, latitude := NumCell.num 30, longitude := NumCell.num 120,
    collector := none, audio := none, content := none }

/-! ## Helper lemmas -/

/-- `flt` agrees with IEEE-754 binary64 division on the sampled ratios. -/
theorem flt_reference_ok :
    flt_reference_table.all (fun t => (flt ⟨(t.1 : Int), t.2.1⟩).num * (t.2.2.2 : Int)
        == t.2.2.1 * ((flt ⟨(t.1 : Int), t.2.1⟩).den : Int)) = true := by decide

/-- The embedded color function reproduces the program's binary64 output
at every reachable input: for each `k < 35`, the model's colors for
`n = k + 1` equal row `k` of the reference table.  Each of the 630 colors
is evaluated once and compared to a literal. -/
theorem hsv_table_ok :
    ((List.range 35).all (fun k =>
      (List.range (k + 1)).map (hsv_to_hex (k + 1)) == hsv_reference_table.getD k [])) = true := by
  decide

/-- Each reference row consists of pairwise distinct lowercase `#rrggbb`
strings (a check on literals only). -/
theorem hsv_table_props :
    (hsv_reference_table.all (fun row =>
      decide row.Nodup && row.all isHexColor)) = true := by decide

/-- Positional access stays inside the list. -/
theorem getD_mem_of_lt {α : Type} (d : α) :
    ∀ (l : List α) (i : Nat), i < l.length → l.getD i d ∈ l := by
  intro l
  induction l with
  | nil => intro i h; simp at h
  | cons x xs ih =>
    intro i h
    cases i with
    | zero => simp
    | succ j =>
      have hj : j < xs.length := by simpa using h
      rw [List.getD_cons_succ]
      exact List.mem_cons_of_mem x (ih j hj)

/-- The model's color list for `n` provinces is row `n - 1` of the
reference table. -/
theorem colors_eq_table (n : Nat) (hn : n < 36) (hpos : 0 < n) :
    (List.range n).map (hsv_to_hex n) = hsv_reference_table.getD (n - 1) [] := by
  have hchk := hsv_table_ok
  rw [List.all_eq_true] at hchk
  have hmem : n - 1 ∈ List.range 35 := List.mem_range.mpr (by omega)
  have heq := hchk (n - 1) hmem
  rw [show n - 1 + 1 = n from by omega] at heq
  exact eq_of_beq heq

/-- For every province count up to 35 (the resolver's codomain has 35
values, so no run sees more), the allocated colors are pairwise distinct. -/
theorem colors_nodup_upto35 :
    ∀ n < 36, 0 < n → ((List.range n).map (hsv_to_hex n)).Nodup := by
  intro n hn hpos
  rw [colors_eq_table n hn hpos]
  have hprops := hsv_table_props
  rw [List.all_eq_true] at hprops
  have hrow : hsv_reference_table.getD (n - 1) [] ∈ hsv_reference_table :=
    getD_mem_of_lt [] hsv_reference_table (n - 1) (by
      have h35 : hsv_reference_table.length = 35 := rfl
      omega)
  have h := hprops _ hrow
  rw [Bool.and_eq_true] at h
  exact of_decide_eq_true h.1

/-- For every province count up to 35, each allocated color matches the
lowercase six-digit hex format. -/
theorem colors_format_upto35 :
    ∀ n < 36, ∀ i < n, isHexColor (hsv_to_hex n i) = true := by
  intro n hn i hi
  have hpos : 0 < n := by omega
  have hmem : hsv_to_hex n i ∈ (List.range n).map (hsv_to_hex n) :=
    List.mem_map_of_mem _ (List.mem_range.mpr hi)
  rw [colors_eq_table n hn hpos] at hmem
  have hprops := hsv_table_props
  rw [List.all_eq_true] at hprops
  have hrow : hsv_reference_table.getD (n - 1) [] ∈ hsv_reference_table :=
    getD_mem_of_lt [] hsv_reference_table (n - 1) (by
      have h35 : hsv_reference_table.length = 35 := rfl
      omega)
  have h := hprops _ hrow
  rw [Bool.and_eq_true] at h
  rw [List.all_eq_true] at h
  exact h.2 _ hmem

/-- The keys of the allocator's pair list are the input labels, in order. -/
theorem generate_map_fst (provs : List String) :
    (generate_province_colors provs).map Prod.fst = provs := by
  simp [generate_province_colors, List.map_map, Function.comp_def]

/-- The values of the allocator's pair list are the colors of indices
`0..n-1`. -/
theorem generate_map_snd (provs : List String) :
    (generate_province_colors provs).map Prod.snd =
      (List.range provs.length).map (hsv_to_hex provs.length) := by
  rw [← List.enum_map_fst provs, List.map_map]
  simp [generate_province_colors, List.map_map, Function.comp_def]

/-- A duplicate-free list contained in another list is no longer than it. -/
theorem length_le_of_nodup_subset {l m : List String} (hnd : l.Nodup)
    (hsub : ∀ x ∈ l, x ∈ m) : l.length ≤ m.length := by
  calc l.length = l.toFinset.card := (List.toFinset_card_of_nodup hnd).symm
    _ ≤ m.toFinset.card := Finset.card_le_card (by
        intro x hx
        rw [List.mem_toFinset] at hx ⊢
        exact hsub x hx)
    _ ≤ m.length := m.toFinset_card_le

/-- Membership in the first-seen deduplication, relative to the
accumulator. -/
theorem mem_uniqueFirstAux (a : String) :
    ∀ (l seen : List String), a ∈ uniqueFirstAux seen l ↔ a ∈ l ∧ a ∉ seen := by
  intro l
  induction l with
  | nil => intro seen; simp [uniqueFirstAux]
  | cons x xs ih =>
    intro seen
    simp only [uniqueFirstAux]
    by_cases hx : x ∈ seen
    · rw [if_pos hx, ih]
      simp only [List.mem_cons]
      constructor
      · rintro ⟨h1, h2⟩; exact ⟨Or.inr h1, h2⟩
      · rintro ⟨h1 | h1, h2⟩
        · subst h1; exact absurd hx h2
        · exact ⟨h1, h2⟩
    · rw [if_neg hx]
      simp only [List.mem_cons, ih, List.mem_cons]
      constructor
      · rintro (rfl | ⟨h1, h2⟩)
        · exact ⟨Or.inl rfl, hx⟩
        · exact ⟨Or.inr h1, fun hs => h2 (Or.inr hs)⟩
      · rintro ⟨rfl | h1, h2⟩
        · exact Or.inl rfl
        · by_cases hax : a = x
          · exact Or.inl hax
          · refine Or.inr ⟨h1, fun hs => ?_⟩
            rcases hs with h | h
            · exact hax h
            · exact h2 h

/-- `uniqueFirst` keeps exactly the values of its input. -/
theorem mem_uniqueFirst (a : String) (l : List String) :
    a ∈ uniqueFirst l ↔ a ∈ l := by
  rw [uniqueFirst, mem_uniqueFirstAux]
  simp

/-- Every label of the input list has an entry in the allocator's pair
list, keyed by itself. -/
theorem colors_find_of_mem (provs : List String) (k : String) (hk : k ∈ provs) :
    ∃ c, (generate_province_colors provs).find? (fun pr => pr.1 == k) = some (k, c) := by
  have hmem : k ∈ (generate_province_colors provs).map Prod.fst := by
    rw [generate_map_fst]; exact hk
  obtain ⟨pr, hpr, hfst⟩ := List.mem_map.mp hmem
  have hsome : ((generate_province_colors provs).find? (fun pr => pr.1 == k)).isSome := by
    rw [List.find?_isSome]
    exact ⟨pr, hpr, by simp [hfst]⟩
  obtain ⟨pr0, hpr0⟩ := Option.isSome_iff_exists.mp hsome
  have hp : pr0.1 = k := by simpa using List.find?_some hpr0
  refine ⟨pr0.2, ?_⟩
  rw [hpr0]
  cases pr0
  simp_all

/-- No table entry matches the empty location (stems tier). -/
theorem provinces_not_in_empty : ∀ q ∈ provinces, isSubstr q "" = false := by decide

/-- No table entry matches the empty location (abbreviation tier). -/
theorem abbr_not_in_empty : ∀ pr ∈ province_abbr, isSubstr pr.1 "" = false := by decide

/-- No table entry matches the empty location (city tier). -/
theorem city_not_in_empty : ∀ pr ∈ city_to_province, isSubstr pr.1 "" = false := by decide

/-- Unfolding of `extract_province` on a present, non-empty location. -/
theorem extract_province_some (loc : String) (hne : loc ≠ "") :
    extract_province (some loc) =
      (match provinces.find? (fun p => isSubstr p loc) with
       | some p => lookupFullname p
       | none =>
         match province_abbr.find? (fun pr => isSubstr pr.1 loc) with
         | some pr => pr.2
         | none =>
           match city_to_province.find? (fun pr => isSubstr pr.1 loc) with
           | some pr => pr.2
           | none => "未知省份") := by
  simp only [extract_province, if_neg hne]

/-- Stem tier: if some stem occurs in the location, the resolver returns
the full name of the first matching stem in table order. -/
theorem stem_tier (loc : String) (h : ∃ q ∈ provinces, isSubstr q loc = true) :
    ∃ p, provinces.find? (fun q => isSubstr q loc) = some p ∧
      extract_province (some loc) = lookupFullname p := by
  have hne : loc ≠ "" := by
    rintro rfl
    obtain ⟨q, hq, hs⟩ := h
    rw [provinces_not_in_empty q hq] at hs
    exact Bool.false_ne_true hs
  have hsome : (provinces.find? (fun q => isSubstr q loc)).isSome := by
    rw [List.find?_isSome]
    obtain ⟨q, hq, hs⟩ := h
    exact ⟨q, hq, hs⟩
  obtain ⟨p, hp⟩ := Option.isSome_iff_exists.mp hsome
  refine ⟨p, hp, ?_⟩
  rw [extract_province_some loc hne, hp]

/-- Abbreviation tier: with no stem match, the resolver returns the
mapped province of the first abbreviation in table order occurring in the
location. -/
theorem abbr_tier (loc : String)
    (hstem : ∀ q ∈ provinces, isSubstr q loc = false)
    (h : ∃ pr ∈ province_abbr, isSubstr pr.1 loc = true) :
    ∃ pr, province_abbr.find? (fun e => isSubstr e.1 loc) = some pr ∧
      extract_province (some loc) = pr.2 := by
  have hne : loc ≠ "" := by
    rintro rfl
    obtain ⟨pr, hpr, hs⟩ := h
    rw [abbr_not_in_empty pr hpr] at hs
    exact Bool.false_ne_true hs
  have hstemnone : provinces.find? (fun q => isSubstr q loc) = none := by
    rw [List.find?_eq_none]
    intro q hq
    simp [hstem q hq]
  have hsome : (province_abbr.find? (fun e => isSubstr e.1 loc)).isSome := by
    rw [List.find?_isSome]
    obtain ⟨pr, hpr, hs⟩ := h
    exact ⟨pr, hpr, hs⟩
  obtain ⟨pr, hp⟩ := Option.isSome_iff_exists.mp hsome
  refine ⟨pr, hp, ?_⟩
  rw [extract_province_some loc hne, hstemnone, hp]

/-- City tier: with no stem and no abbreviation match, the resolver
returns the mapped province of the first city in table order occurring in
the location. -/
theorem city_tier (loc : String)
    (hstem : ∀ q ∈ provinces, isSubstr q loc = false)
    (habbr : ∀ pr ∈ province_abbr, isSubstr pr.1 loc = false)
    (h : ∃ pr ∈ city_to_province, isSubstr pr.1 loc = true) :
    ∃ pr, city_to_province.find? (fun e => isSubstr e.1 loc) = some pr ∧
      extract_province (some loc) = pr.2 := by
  have hne : loc ≠ "" := by
    rintro rfl
    obtain ⟨pr, hpr, hs⟩ := h
    rw [city_not_in_empty pr hpr] at hs
    exact Bool.false_ne_true hs
  have hstemnone : provinces.find? (fun q => isSubstr q loc) = none := by
    rw [List.find?_eq_none]
    intro q hq
    simp [hstem q hq]
  have habbrnone : province_abbr.find? (fun e => isSubstr e.1 loc) = none := by
    rw [List.find?_eq_none]
    intro pr hpr
    simp [habbr pr hpr]
  have hsome : (city_to_province.find? (fun e => isSubstr e.1 loc)).isSome := by
    rw [List.find?_isSome]
    obtain ⟨pr, hpr, hs⟩ := h
    exact ⟨pr, hpr, hs⟩
  obtain ⟨pr, hp⟩ := Option.isSome_iff_exists.mp hsome
  refine ⟨pr, hp, ?_⟩
  rw [extract_province_some loc hne, hstemnone, habbrnone, hp]

/-- With no match in any tier, the resolver returns the sentinel. -/
theorem no_tier_sentinel (loc : String)
    (hstem : ∀ q ∈ provinces, isSubstr q loc = false)
    (habbr : ∀ pr ∈ province_abbr, isSubstr pr.1 loc = false)
    (hcity : ∀ pr ∈ city_to_province, isSubstr pr.1 loc = false) :
    extract_province (some loc) = "未知省份" := by
  by_cases hne : loc = ""
  · subst hne; rfl
  · rw [extract_province_some loc hne]
    have h1 : provinces.find? (fun q => isSubstr q loc) = none := by
      rw [List.find?_eq_none]; intro q hq; simp [hstem q hq]
    have h2 : province_abbr.find? (fun e => isSubstr e.1 loc) = none := by
      rw [List.find?_eq_none]; intro pr hpr; simp [habbr pr hpr]
    have h3 : city_to_province.find? (fun e => isSubstr e.1 loc) = none := by
      rw [List.find?_eq_none]; intro pr hpr; simp [hcity pr hpr]
    rw [h1, h2, h3]

/-- The loop emits one item per row. -/
theorem buildAll_length (c : List (String × String)) (au : String) :
    ∀ (rows : List Row) (k : Nat), (buildAll c au k rows).length = rows.length := by
  intro rows
  induction rows with
  | nil => intro k; rfl
  | cons r rs ih => intro k; simp [buildAll, ih]

/-- The `i`-th emitted record is built from the `i`-th row with index
`k + i`. -/
theorem buildAll_fst_getD (c : List (String × String)) (au : String) :
    ∀ (rows : List Row) (k i : Nat), i < rows.length →
      ((buildAll c au k rows).map Prod.fst).getD i defaultRec =
        (buildRecord c au (k + i) (rows.getD i defaultRow)).1 := by
  intro rows
  induction rows with
  | nil => intro k i h; simp at h
  | cons r rs ih =>
    intro k i h
    cases i with
    | zero => simp [buildAll]
    | succ j =>
      have hj : j < rs.length := by simpa using h
      have hk : k + (j + 1) = (k + 1) + j := by omega
      simp only [buildAll, List.map_cons, List.getD_cons_succ, hk]
      exact ih (k + 1) j hj

/-- The per-iteration warning output is exactly the coordinate warning of
that row. -/
theorem buildRecord_snd (c : List (String × String)) (au : String)
    (i : Nat) (row : Row) :
    (buildRecord c au i row).2 = if rowBad row then [warnMsg i] else [] := by
  obtain ⟨l, la, lo, co, aud, ct⟩ := row
  cases la <;> cases lo <;> simp [buildRecord, coordOf, rowBad, parseCoord]

/-- The concatenated warning stream of the loop matches the per-row
description. -/
theorem buildAll_warnings (c : List (String × String)) (au : String) :
    ∀ (rows : List Row) (k : Nat),
      ((buildAll c au k rows).map Prod.snd).flatten = specWarnings k rows := by
  intro rows
  induction rows with
  | nil => intro k; rfl
  | cons r rs ih =>
    intro k
    simp only [buildAll, List.map_cons, List.flatten_cons, ih, specWarnings]
    rw [buildRecord_snd]

/-- The driver's record list, unfolded. -/
theorem records_eq (rows : List Row) (au : String) :
    (generate_dialect_json rows au).records =
      (buildAll (colorsOf rows) au 0 rows).map Prod.fst := rfl

/-- One record per input row. -/
theorem records_length (rows : List Row) (au : String) :
    (generate_dialect_json rows au).records.length = rows.length := by
  rw [records_eq, List.length_map]
  exact buildAll_length (colorsOf rows) au rows 0

/-- The `i`-th output record is the one built from the `i`-th input row. -/
theorem recAt_eq (rows : List Row) (au : String) (i : Nat) (h : i < rows.length) :
    recAt rows au i = (buildRecord (colorsOf rows) au i (rowAt rows i)).1 := by
  have hb := buildAll_fst_getD (colorsOf rows) au rows 0 i h
  rw [Nat.zero_add] at hb
  rw [recAt, records_eq, rowAt]
  exact hb

/-- The driver's warning stream matches the per-row description. -/
theorem warnings_eq (rows : List Row) (au : String) :
    (generate_dialect_json rows au).warnings = specWarnings 0 rows := by
  have hb := buildAll_warnings (colorsOf rows) au rows 0
  exact hb

/-- A row with a bad coordinate contributes its warning to the stream. -/
theorem specWarnings_mem :
    ∀ (rows : List Row) (k i : Nat), i < rows.length →
      rowBad (rows.getD i defaultRow) = true →
      warnMsg (k + i) ∈ specWarnings k rows := by
  intro rows
  induction rows with
  | nil => intro k i h; simp at h
  | cons r rs ih =>
    intro k i h hb
    cases i with
    | zero =>
      rw [List.getD_cons_zero] at hb
      simp [specWarnings, hb]
    | succ j =>
      have hj : j < rs.length := by simpa using h
      have hb2 : rowBad (rs.getD j defaultRow) = true := by
        rw [List.getD_cons_succ] at hb
        exact hb
      have hk : k + (j + 1) = (k + 1) + j := by omega
      rw [hk]
      simp only [specWarnings]
      exact List.mem_append_right _ (ih (k + 1) j hj hb2)

/-- A bad row's coordinates collapse to zero with its warning. -/
theorem coordOf_bad (i : Nat) (row : Row) (h : rowBad row = true) :
    coordOf i row = (0, 0, [warnMsg i]) := by
  obtain ⟨l, la, lo, co, aud, ct⟩ := row
  cases la <;> cases lo <;> simp_all [coordOf, rowBad, parseCoord]

/-- A convertible row keeps its coordinate values and warns nothing. -/
theorem coordOf_good (i : Nat) (row : Row) (lo la : Rat)
    (hl : parseCoord row.longitude = some lo)
    (hb : parseCoord row.latitude = some la) :
    coordOf i row = (lo, la, []) := by
  obtain ⟨l, la2, lo2, co, aud, ct⟩ := row
  cases la2 <;> cases lo2 <;> simp_all [coordOf, parseCoord]

/-! ## Claim theorems -/

/-- C2: over any non-empty duplicate-free list of province labels, the
Color Allocator returns one entry per label in input order, with pairwise
distinct color values each matching the lowercase `#rrggbb` hex format;
being a pure function of its input it is deterministic, and the empty
label list yields the empty mapping. -/
theorem c2_allocator_distinct_hex_colors :
    (∀ labels : List String, labels ≠ [] → labels.Nodup →
      (∀ l ∈ labels, l ∈ provinceLabelSet) →
      (generate_province_colors labels).map Prod.fst = labels ∧
      (generate_province_colors labels).length = labels.length ∧
      ((generate_province_colors labels).map Prod.snd).Nodup ∧
      ∀ c ∈ (generate_province_colors labels).map Prod.snd, isHexColor c = true) ∧
    generate_province_colors [] = [] := by
  constructor
  · intro labels hne hnd hsub
    have h35 : provinceLabelSet.length = 35 := rfl
    have hlen35 : labels.length ≤ 35 := by
      have h := length_le_of_nodup_subset hnd hsub
      rw [h35] at h
      exact h
    have hpos : 0 < labels.length := List.length_pos.mpr hne
    refine ⟨generate_map_fst labels, ?_, ?_, ?_⟩
    · simp [generate_province_colors]
    · rw [generate_map_snd]
      exact colors_nodup_upto35 labels.length (by omega) hpos
    · intro c hc
      rw [generate_map_snd] at hc
      obtain ⟨i, hi, rfl⟩ := List.mem_map.mp hc
      exact colors_format_upto35 labels.length (by omega) i (List.mem_range.mp hi)
  · rfl

/-- C2 witness: a concrete three-label allocation. -/
theorem c2_allocator_distinct_hex_colors_witness :
    (generate_province_colors ["江苏省", "未知省份", "北京市"]).map Prod.fst
        = ["江苏省", "未知省份", "北京市"] ∧
    ((generate_province_colors ["江苏省", "未知省份", "北京市"]).map Prod.snd).Nodup := by
  have h := c2_allocator_distinct_hex_colors.1 ["江苏省", "未知省份", "北京市"]
    (by decide) (by decide) (by decide)
  exact ⟨h.1, h.2.2.1⟩

/-- C3: a location containing no stem but containing some single-character
abbreviation resolves to the canonical province mapped from the first
abbreviation in table iteration order occurring anywhere in the text. -/
theorem c3_abbr_resolution (loc : String)
    (hstem : ∀ q ∈ provinces, isSubstr q loc = false)
    (h : ∃ pr ∈ province_abbr, isSubstr pr.1 loc = true) :
    ∃ pr, province_abbr.find? (fun e => isSubstr e.1 loc) = some pr ∧
      extract_province (some loc) = pr.2 :=
  abbr_tier loc hstem h

/-- C3 witness: "沪上风光" contains the abbreviation "沪" and no stem. -/
theorem c3_abbr_resolution_witness :
    extract_province (some "沪上风光") = "上海市" := by
  obtain ⟨pr, hfind, hres⟩ := c3_abbr_resolution "沪上风光" (by decide) (by decide)
  have h2 : province_abbr.find? (fun e => isSubstr e.1 "沪上风光")
      = some ("沪", "上海市") := by decide
  rw [h2] at hfind
  rw [hres, ← Option.some_inj.mp hfind]

/-- C4: a location containing a canonical stem resolves to the full
canonical name of the first matching stem in table order, regardless of
surrounding text. -/
theorem c4_stem_resolution (loc : String)
    (h : ∃ q ∈ provinces, isSubstr q loc = true) :
    ∃ p, provinces.find? (fun q => isSubstr q loc) = some p ∧
      extract_province (some loc) = lookupFullname p :=
  stem_tier loc h

/-- C4 witness: "江苏南京" contains the stem "江苏". -/
theorem c4_stem_resolution_witness :
    extract_province (some "江苏南京") = "江苏省" := by
  obtain ⟨p, hfind, hres⟩ := c4_stem_resolution "江苏南京" (by decide)
  have h2 : provinces.find? (fun q => isSubstr q "江苏南京") = some "江苏" := by decide
  rw [h2] at hfind
  rw [hres, ← Option.some_inj.mp hfind]
  rfl

/-- C5: with no stem and no abbreviation match, a location containing a
known city resolves to the province of the first matching city in table
iteration order; and with no match in any tier the resolver returns the
unknown sentinel. -/
theorem c5_city_resolution_and_sentinel :
    (∀ loc : String,
      (∀ q ∈ provinces, isSubstr q loc = false) →
      (∀ pr ∈ province_abbr, isSubstr pr.1 loc = false) →
      (∃ pr ∈ city_to_province, isSubstr pr.1 loc = true) →
      ∃ pr, city_to_province.find? (fun e => isSubstr e.1 loc) = some pr ∧
        extract_province (some loc) = pr.2) ∧
    (∀ loc : String,
      (∀ q ∈ provinces, isSubstr q loc = false) →
      (∀ pr ∈ province_abbr, isSubstr pr.1 loc = false) →
      (∀ pr ∈ city_to_province, isSubstr pr.1 loc = false) →
      extract_province (some loc) = "未知省份") :=
  ⟨city_tier, no_tier_sentinel⟩

/-- C5 witness: "绵阳市" matches only the city table; "某地" matches no
tier. -/
theorem c5_city_resolution_and_sentinel_witness :
    extract_province (some "绵阳市") = "四川省" ∧
    extract_province (some "某地") = "未知省份" := by
  constructor
  · obtain ⟨pr, hfind, hres⟩ := c5_city_resolution_and_sentinel.1 "绵阳市"
      (by decide) (by decide) (by decide)
    have h2 : city_to_province.find? (fun e => isSubstr e.1 "绵阳市")
        = some ("绵阳", "四川省") := by decide
    rw [h2] at hfind
    rw [hres, ← Option.some_inj.mp hfind]
  · exact c5_city_resolution_and_sentinel.2 "某地" (by decide) (by decide) (by decide)

/-- C9: the abbreviation tier shadows the city table: "青岛" resolves to
"青海省" via the abbreviation "青", never reaching the city entry
("青岛", "山东省"); and any location containing "北京", "上海", "天津" or
"重庆" is already decided by the stem tier, so those city-table entries
can never determine the result. -/
theorem c9_abbr_shadows_city :
    extract_province (some "青岛") = "青海省" ∧
    ∀ c ∈ (["北京", "上海", "天津", "重庆"] : List String), ∀ loc : String,
      isSubstr c loc = true →
      ∃ p, provinces.find? (fun q => isSubstr q loc) = some p ∧
        extract_province (some loc) = lookupFullname p := by
  refine ⟨by decide, ?_⟩
  intro c hc loc hs
  have hcp : c ∈ provinces := by
    simp only [List.mem_cons, List.not_mem_nil, or_false] at hc
    rcases hc with rfl | rfl | rfl | rfl <;> decide
  exact stem_tier loc ⟨c, hcp, hs⟩

/-- C9 witness: "老北京" contains the city-table key "北京" but is decided
by the stem tier. -/
theorem c9_abbr_shadows_city_witness :
    extract_province (some "老北京") = "北京市" := by
  obtain ⟨p, hfind, hres⟩ := c9_abbr_shadows_city.2 "北京" (by decide) "老北京" (by decide)
  have h2 : provinces.find? (fun q => isSubstr q "老北京") = some "北京" := by decide
  rw [h2] at hfind
  rw [hres, ← Option.some_inj.mp hfind]
  rfl

/-- C1 counterexample: in a run whose single row resolves to the unknown
sentinel, the allocator's mapping does contain an entry for the sentinel,
and the sentinel record's color is the allocated "#cc5151", not the
"#999999" default the claim requires. -/
theorem c1_sentinel_counterexample :
    (colorsOf [rowUnknown]).map Prod.fst = ["未知省份"] ∧
    (recAt [rowUnknown] "" 0).province = "未知省份" ∧
    (recAt [rowUnknown] "" 0).color = "#cc5151" ∧
    ("#cc5151" : String) ≠ "#999999" := by decide

/-- C1 (amended): every output record's province, the unknown sentinel
included, has an entry in the allocator's mapping, and the record's color
is exactly that entry's value; the "#999999" fallback is reserved for
provinces absent from the mapping, which never occurs in a run. -/
theorem c1_color_lookup (rows : List Row) (au : String) (i : Nat)
    (h : i < rows.length) :
    ∃ c, (colorsOf rows).find? (fun pr => pr.1 == (recAt rows au i).province)
        = some ((recAt rows au i).province, c) ∧
      (recAt rows au i).color = c := by
  rw [recAt_eq rows au i h]
  have hprov : (buildRecord (colorsOf rows) au i (rowAt rows i)).1.province
      = extract_province (rowAt rows i).location := rfl
  rw [hprov]
  have hmem : extract_province (rowAt rows i).location
      ∈ uniqueFirst (rows.map (fun r => extract_province r.location)) := by
    rw [mem_uniqueFirst]
    have hrow : rowAt rows i ∈ rows := getD_mem_of_lt defaultRow rows i h
    exact List.mem_map_of_mem _ hrow
  obtain ⟨c, hc⟩ := colors_find_of_mem
    (uniqueFirst (rows.map (fun r => extract_province r.location)))
    (extract_province (rowAt rows i).location) hmem
  refine ⟨c, hc, ?_⟩
  show dictGet (colorsOf rows) (extract_province (rowAt rows i).location) "#999999" = c
  rw [dictGet]
  rw [show colorsOf rows = generate_province_colors
    (uniqueFirst (rows.map (fun r => extract_province r.location))) from rfl]
  rw [hc]

/-- C1 witness: the lookup at the sentinel row of a concrete run. -/
theorem c1_color_lookup_witness :
    (colorsOf [rowUnknown]).find?
        (fun pr => pr.1 == (recAt [rowUnknown] "" 0).province)
      = some ((recAt [rowUnknown] "" 0).province, "#cc5151") ∧
    (recAt [rowUnknown] "" 0).color = "#cc5151" := by
  obtain ⟨c, hc, hcol⟩ := c1_color_lookup [rowUnknown] "" 0 (by decide)
  have h2 : (colorsOf [rowUnknown]).find?
      (fun pr => pr.1 == (recAt [rowUnknown] "" 0).province)
      = some ("未知省份", "#cc5151") := by decide
  rw [h2] at hc
  have hcc : "#cc5151" = c := congrArg Prod.snd (Option.some_inj.mp hc)
  subst hcc
  exact ⟨h2.trans (by decide), hcol⟩

/-- C6 counterexample: a missing latitude cell is coerced to 0.0 with NO
warning emitted, contradicting the claim that missing coordinates are
logged; the well-formed longitude survives. -/
theorem c6_missing_silent_counterexample :
    (generate_dialect_json [rowMissingLat] "").warnings = [] ∧
    (recAt [rowMissingLat] "" 0).latitude = 0 ∧
    (recAt [rowMissingLat] "" 0).longitude = 120 :=
  ⟨rfl, rfl, rfl⟩

/-- C6 (amended): a row with an unparsable coordinate gets both
coordinates replaced by 0.0 and contributes a warning naming its 1-based
row number; rows whose coordinates convert (missing cells convert to 0.0)
keep the converted values and warn nothing — the warning stream is exactly
one entry per bad row, so processing continues across rows. -/
theorem c6_coordinate_handling (rows : List Row) (au : String) :
    (∀ i, i < rows.length →
      (rowBad (rowAt rows i) = true →
        (recAt rows au i).longitude = 0 ∧ (recAt rows au i).latitude = 0 ∧
        warnMsg i ∈ (generate_dialect_json rows au).warnings) ∧
      (∀ lo la, parseCoord (rowAt rows i).longitude = some lo →
        parseCoord (rowAt rows i).latitude = some la →
        (recAt rows au i).longitude = lo ∧ (recAt rows au i).latitude = la)) ∧
    (generate_dialect_json rows au).warnings = specWarnings 0 rows ∧
    parseCoord NumCell.missing = some 0 ∧
    (∀ i, warnMsg i = "警告: 第" ++ Nat.repr (i + 1) ++ "行的经纬度格式不正确，已设为默认值") := by
  refine ⟨?_, warnings_eq rows au, rfl, fun i => rfl⟩
  intro i h
  constructor
  · intro hbad
    rw [recAt_eq rows au i h]
    refine ⟨?_, ?_, ?_⟩
    · show (coordOf i (rowAt rows i)).1 = 0
      rw [coordOf_bad i _ hbad]
    · show (coordOf i (rowAt rows i)).2.1 = 0
      rw [coordOf_bad i _ hbad]
    · rw [warnings_eq rows au]
      have hm := specWarnings_mem rows 0 i h hbad
      rw [Nat.zero_add] at hm
      exact hm
  · intro lo la hl hb
    rw [recAt_eq rows au i h]
    constructor
    · show (coordOf i (rowAt rows i)).1 = lo
      rw [coordOf_good i _ lo la hl hb]
    · show (coordOf i (rowAt rows i)).2.1 = la
      rw [coordOf_good i _ lo la hl hb]

/-- C6 witness: the bad-latitude row at index 0 of a concrete run. -/
theorem c6_coordinate_handling_witness :
    (recAt [rowBadLat] "" 0).longitude = 0 ∧
    (recAt [rowBadLat] "" 0).latitude = 0 ∧
    warnMsg 0 ∈ (generate_dialect_json [rowBadLat] "").warnings :=
  ((c6_coordinate_handling [rowBadLat] "").1 0 (by decide)).1 (by decide)

/-- C7: the driver emits one record per input row in input order, the
`i`-th (0-based) record has id `dialect_<i+1>`, a present non-empty audio
reference yields the prefixed raw reference as url and the base filename
without extension as name, and an absent reference yields two empty
strings. -/
theorem c7_record_shape (rows : List Row) (au : String) :
    (generate_dialect_json rows au).records.length = rows.length ∧
    ∀ i, i < rows.length →
      (recAt rows au i).id = "dialect_" ++ Nat.repr (i + 1) ∧
      (∀ s, (rowAt rows i).audio = some s → s ≠ "" →
        (recAt rows au i).audio_url = au ++ s ∧
        (recAt rows au i).audio_name = splitextStem (basename s)) ∧
      ((rowAt rows i).audio = none →
        (recAt rows au i).audio_url = "" ∧ (recAt rows au i).audio_name = "") := by
  refine ⟨records_length rows au, ?_⟩
  intro i h
  rw [recAt_eq rows au i h]
  refine ⟨rfl, ?_, ?_⟩
  · intro s hs hne
    simp only [buildRecord]
    rw [hs]
    simp [Option.getD, hne]
  · intro hnone
    simp only [buildRecord]
    rw [hnone]
    simp [Option.getD]

/-- C7 witness: a concrete one-row run with a prefixed audio path. -/
theorem c7_record_shape_witness :
    (generate_dialect_json [rowFull] "Audio/").records.length = 1 ∧
    (recAt [rowFull] "Audio/" 0).id = "dialect_1" ∧
    (recAt [rowFull] "Audio/" 0).audio_url = "Audio/rec/sub/bar.mp3" ∧
    (recAt [rowFull] "Audio/" 0).audio_name = "bar" := by
  obtain ⟨hlen, hrec⟩ := c7_record_shape [rowFull] "Audio/"
  obtain ⟨hid, hsome, -⟩ := hrec 0 (by decide)
  obtain ⟨hurl, hname⟩ := hsome "rec/sub/bar.mp3" rfl (by decide)
  refine ⟨hlen, ?_, ?_, ?_⟩
  · rw [hid]
    rfl
  · rw [hurl]
    rfl
  · rw [hname]
    rfl

/-- C8 counterexample: two rows with absent locations receive different
placeholder strings ("未知地点_1" vs "未知地点_2"), so the location
placeholder varies with the row, contradicting the claim of a fixed
placeholder for all three optional text fields. -/
theorem c8_location_varies_counterexample :
    (recAt [rowEmptyText, rowEmptyText] "" 0).location = "未知地点_1" ∧
    (recAt [rowEmptyText, rowEmptyText] "" 1).location = "未知地点_2" ∧
    ("未知地点_1" : String) ≠ "未知地点_2" := by decide

/-- C8 (amended): absent collector and content cells are replaced by the
fixed placeholders "未知采集人" and "无内容描述"; an absent location cell
is replaced by "未知地点_<i+1>", which embeds the 1-based row number and
therefore varies with the row; none of these substitutions emits a warning
(the warning stream is determined by the coordinate cells alone). -/
theorem c8_text_defaults (rows : List Row) (au : String) (i : Nat)
    (h : i < rows.length) :
    ((rowAt rows i).collector = none → (recAt rows au i).collector = "未知采集人") ∧
    ((rowAt rows i).content = none → (recAt rows au i).content = "无内容描述") ∧
    ((rowAt rows i).location = none →
      (recAt rows au i).location = "未知地点_" ++ Nat.repr (i + 1)) ∧
    (generate_dialect_json rows au).warnings = specWarnings 0 rows := by
  rw [recAt_eq rows au i h]
  refine ⟨?_, ?_, ?_, warnings_eq rows au⟩
  · intro hnone
    simp only [buildRecord]
    rw [hnone]
    rfl
  · intro hnone
    simp only [buildRecord]
    rw [hnone]
    rfl
  · intro hnone
    simp only [buildRecord]
    rw [hnone]
    rfl

/-- C8 witness: the all-absent row of a concrete run. -/
theorem c8_text_defaults_witness :
    (recAt [rowEmptyText] "x" 0).collector = "未知采集人" ∧
    (recAt [rowEmptyText] "x" 0).content = "无内容描述" ∧
    (recAt [rowEmptyText] "x" 0).location = "未知地点_1" := by
  obtain ⟨h1, h2, h3, -⟩ := c8_text_defaults [rowEmptyText] "x" 0 (by decide)
  refine ⟨h1 rfl, h2 rfl, ?_⟩
  rw [h3 rfl]
  rfl

/-- C10: when exactly one of the two coordinates of a row is unparsable,
both output coordinates are set to 0.0 — the well-formed value of the
other coordinate is discarded. -/
theorem c10_both_coordinates_zeroed (rows : List Row) (au : String) (i : Nat)
    (h : i < rows.length)
    (hone : (parseCoord (rowAt rows i).longitude = none ∧
             (parseCoord (rowAt rows i).latitude).isSome) ∨
            ((parseCoord (rowAt rows i).longitude).isSome ∧
             parseCoord (rowAt rows i).latitude = none)) :
    (recAt rows au i).longitude = 0 ∧ (recAt rows au i).latitude = 0 := by
  have hbad : rowBad (rowAt rows i) = true := by
    rw [rowBad]
    rcases hone with ⟨h1, -⟩ | ⟨-, h1⟩ <;> simp [h1]
  rw [recAt_eq rows au i h]
  constructor
  · show (coordOf i (rowAt rows i)).1 = 0
    rw [coordOf_bad i _ hbad]
  · show (coordOf i (rowAt rows i)).2.1 = 0
    rw [coordOf_bad i _ hbad]

/-- C10 witness: a bad latitude paired with a well-formed longitude 120
zeroes both coordinates. -/
theorem c10_both_coordinates_zeroed_witness :
    (recAt [rowBadLat] "" 0).longitude = 0 ∧
    (recAt [rowBadLat] "" 0).latitude = 0 :=
  c10_both_coordinates_zeroed [rowBadLat] "" 0 (by decide)
    (Or.inr ⟨by decide, by decide⟩)

end DialectMap
